import Mathlib

/-!
Verification of the fixed-point search driver in `compile-errors.py`.

The program repeatedly writes a candidate text to a file, runs an external
command capturing its stdout and stderr, selects one of the two streams, and
compares it with the candidate, stopping on equality, on a failure to start
the command, or after `maxIterations` attempts.

The shallow embedding below models one call to `compileErrors`: the external
process is a `Transformer`, a function from the 1-based iteration number and
the file contents (the candidate followed by one newline, as written by
`print(program, file=f)`) to either a captured result or an exception. The
loop is instrumented with a trace of iteration records so that invocation
counts and the on-disk artifact contents can be stated as theorems.
-/

namespace CompileErrors

/-- The budget constant from line 22 of the source. -/
def maxIterations : Nat := 10

/-- The value of `subprocess.run(...)` when the process could be started:
both captured streams as text, plus the exit status. -/
structure RunResult where
  stdout : String
  stderr : String
  returncode : Int
deriving Repr, DecidableEq

/-- Result of one attempted invocation: either a completed `subprocess.run`
or an exception raised while trying to start the process (the `except
Exception` branch, lines 40-42). -/
inductive InvokeResult where
  | ok : RunResult → InvokeResult
  | exn : String → InvokeResult
deriving Repr, DecidableEq

/-- The external transformer: given the 1-based iteration number and the
contents of the artifact file, produce the invocation result. The iteration
number argument makes the model general enough for processes whose behaviour
varies between calls. -/
def Transformer : Type := Nat → String → InvokeResult

/-- Line 43-46: pick the diagnostic stream or the primary stream. -/
def selectOutput (errorsInStderr : Bool) (res : RunResult) : String :=
  if errorsInStderr then res.stderr else res.stdout

/-- Lines 36-37: `print(program, file=f)` writes the program text followed by
exactly one line terminator. -/
def fileText (program : String) : String := program ++ "\n"

/-- The three ways `compileErrors` can exit its loop: the equality test
succeeded (line 49), the subprocess could not be started (line 42), or the
`for` loop ran out (line 52). -/
inductive Outcome where
  | converged : String → Nat → Outcome
  | invocationFailed : List String → Outcome
  | exhaustedBudget : Nat → Outcome
deriving Repr, DecidableEq

/-- One iteration of the loop: the iteration number, the candidate fed in,
the text written to the artifact file, and the invocation's result. -/
structure IterRecord where
  count : Nat
  candidate : String
  fileWritten : String
  result : InvokeResult
deriving Repr, DecidableEq

/-- Lines 35-52, instrumented: the loop body of `compileErrors`.
`remaining` is the number of iterations of `range(1, maxIterations+1)`
still to run; `count` is the current loop index. Returns the exit taken and
the trace of iterations performed. -/
def loop (t : Transformer) (errorsInStderr : Bool) (compileCommand : List String) :
    String → Nat → Nat → Outcome × List IterRecord
  | _, count, 0 => (Outcome.exhaustedBudget (count - 1), [])
  | program, count, remaining + 1 =>
    match t count (fileText program) with
    | InvokeResult.exn reason =>
      (Outcome.invocationFailed compileCommand,
        [⟨count, program, fileText program, InvokeResult.exn reason⟩])
    | InvokeResult.ok res =>
      let output := selectOutput errorsInStderr res
      if program = output then
        (Outcome.converged program count,
          [⟨count, program, fileText program, InvokeResult.ok res⟩])
      else
        let next := loop t errorsInStderr compileCommand output (count + 1) remaining
        (next.1, ⟨count, program, fileText program, InvokeResult.ok res⟩ :: next.2)

/-- One search: lines 34-52 with `count` starting at 1 and `maxIter`
iterations available. -/
def compileErrorsRun (compileCommand : List String) (errorsInStderr : Bool)
    (startingProgram : String) (t : Transformer) (maxIter : Nat) :
    Outcome × List IterRecord :=
  loop t errorsInStderr compileCommand startingProgram 1 maxIter

/-- Python's `str.splitlines` restricted to the terminators that occur here:
`\n`, `\r`, `\r\n`. -/
def splitlinesAux : List Char → List Char → List String
  | [], [] => []
  | [], acc => [String.mk acc.reverse]
  | '\r' :: '\n' :: rest, acc => String.mk acc.reverse :: splitlinesAux rest []
  | '\n' :: rest, acc => String.mk acc.reverse :: splitlinesAux rest []
  | '\r' :: rest, acc => String.mk acc.reverse :: splitlinesAux rest []
  | c :: rest, acc => splitlinesAux rest (c :: acc)
termination_by l _ => l.length

/-- `program.splitlines()` from line 48. -/
def splitlines (s : String) : List String := splitlinesAux s.data []

/-- The full `compileErrors` function (lines 24-52): it returns a `bool`,
and everything else it communicates goes to the console. The second
component collects the printed text: the `description` prefix (line 33)
followed by the one outcome line (line 41, 48 or 51). -/
def compileErrors (description progFile : String) (compileCommand : List String)
    (errorsInStderr : Bool) (startingProgram : String) (t : Transformer)
    (maxIter : Nat) : Bool × String :=
  match (compileErrorsRun compileCommand errorsInStderr startingProgram t maxIter).1 with
  | Outcome.converged program count =>
    (true, description ++ ": " ++ progFile ++ ", " ++ toString count
      ++ " iterations, " ++ toString (splitlines program).length ++ " lines")
  | Outcome.invocationFailed cmd =>
    (false, description ++ ": " ++ "Error: Unable to compile. Command: "
      ++ String.intercalate " " cmd)
  | Outcome.exhaustedBudget n =>
    (false, description ++ ": " ++ "did not converge after " ++ toString n
      ++ " iterations")

/-- A transformer that echoes the artifact file's contents unchanged to the
primary output stream and exits with status 0. -/
def echoStdout : Transformer := fun _ file => InvokeResult.ok ⟨file, "", 0⟩

/-- A transformer that produces no output at all on either stream (the
source's trivial Python case: an empty program produces no error messages). -/
def silentTransformer : Transformer := fun _ _ => InvokeResult.ok ⟨"", "", 0⟩

/-- A transformer that echoes the artifact file's contents to the diagnostic
stream and exits with a nonzero status. -/
def echoStderr : Transformer := fun _ file => InvokeResult.ok ⟨"", file, 1⟩

/-- A transformer whose command cannot be started at all. -/
def failTransformer : Transformer := fun _ _ => InvokeResult.exn "FileNotFoundError"

/-- A transformer that always emits the same diagnostic line on the
diagnostic stream, regardless of its input. -/
def constantDiagnostic : Transformer :=
  fun _ _ => InvokeResult.ok ⟨"", "syntax error on line 1", 1⟩

/-- A transformer that always writes `x` to the primary stream. -/
def constantStdoutX : Transformer := fun _ _ => InvokeResult.ok ⟨"x", "", 0⟩

/-- The invocation at iteration `k` on candidate `c` starts successfully and
its selected stream differs from `c`. -/
def okAndDiffers (t : Transformer) (errorsInStderr : Bool) (k : Nat) (c : String) : Prop :=
  ∃ res, t k (fileText c) = InvokeResult.ok res ∧ selectOutput errorsInStderr res ≠ c

/-- Record `b` is the iteration right after record `a`: `a`'s invocation
completed and `b`'s candidate is exactly `a`'s selected captured stream. -/
def follows (errorsInStderr : Bool) (a b : IterRecord) : Prop :=
  ∃ res, a.result = InvokeResult.ok res ∧
    b.candidate = selectOutput errorsInStderr res ∧ b.count = a.count + 1

/-- Two invocation results agree on everything the search can observe except
the exit status: same captured streams when both complete, same exception
when both fail to start. -/
def sameStreams : InvokeResult → InvokeResult → Prop
  | InvokeResult.ok r1, InvokeResult.ok r2 => r1.stdout = r2.stdout ∧ r1.stderr = r2.stderr
  | InvokeResult.exn a, InvokeResult.exn b => a = b
  | _, _ => False

theorem loop_length_le (t : Transformer) (e : Bool) (cmd : List String) :
    ∀ n c count, ((loop t e cmd c count n).2).length ≤ n := by
  intro n
  induction n with
  | zero => intro c count; simp [loop]
  | succ m ih =>
    intro c count
    cases h : t count (fileText c) with
    | exn reason => simp [loop, h]
    | ok res =>
      by_cases hc : c = selectOutput e res
      · simp only [loop, h, if_pos hc, List.length_cons, List.length_nil]
        omega
      · simp only [loop, h, if_neg hc, List.length_cons]
        exact Nat.succ_le_succ (ih _ _)

theorem loop_length_pos (t : Transformer) (e : Bool) (cmd : List String) :
    ∀ n c count, 1 ≤ n → 1 ≤ ((loop t e cmd c count n).2).length := by
  intro n c count hn
  obtain ⟨m, rfl⟩ : ∃ m, n = m + 1 := ⟨n - 1, by omega⟩
  cases h : t count (fileText c) with
  | exn reason => simp [loop, h]
  | ok res =>
    by_cases hc : c = selectOutput e res
    · simp only [loop, h, if_pos hc, List.length_cons, List.length_nil]
      omega
    · simp only [loop, h, if_neg hc, List.length_cons]
      omega

theorem loop_all_differs (t : Transformer) (e : Bool) (cmd : List String) :
    ∀ n count c, (∀ k c', count ≤ k → k < count + n → okAndDiffers t e k c') →
      (loop t e cmd c count n).1 = Outcome.exhaustedBudget (count + n - 1) ∧
      ((loop t e cmd c count n).2).length = n := by
  intro n
  induction n with
  | zero => intro count c _; simp [loop]
  | succ m ih =>
    intro count c hdiff
    obtain ⟨res, hok, hne⟩ := hdiff count c (Nat.le_refl _) (by omega)
    have hc : ¬ c = selectOutput e res := fun h => hne h.symm
    have ihr := ih (count + 1) (selectOutput e res)
      (fun k c' hk1 hk2 => hdiff k c' (by omega) (by omega))
    simp only [loop, hok, if_neg hc, List.length_cons]
    refine ⟨?_, by rw [ihr.2]⟩
    rw [ihr.1]
    congr 1
    omega

theorem loop_fails (t : Transformer) (e : Bool) (cmd : List String) (k : Nat)
    (hfail : ∀ c, ∃ reason, t k (fileText c) = InvokeResult.exn reason) :
    ∀ n count c, count ≤ k → k < count + n →
      (∀ j c', count ≤ j → j < k → okAndDiffers t e j c') →
      (loop t e cmd c count n).1 = Outcome.invocationFailed cmd ∧
      ((loop t e cmd c count n).2).length = k + 1 - count := by
  intro n
  induction n with
  | zero => intro count c h1 h2 _; omega
  | succ m ih =>
    intro count c h1 h2 hbefore
    rcases Nat.eq_or_lt_of_le h1 with heq | hlt
    · obtain ⟨reason, hexn⟩ := hfail c
      rw [← heq] at hexn
      simp only [loop, hexn, List.length_cons, List.length_nil]
      refine ⟨by trivial, by omega⟩
    · obtain ⟨res, hok, hne⟩ := hbefore count c (Nat.le_refl _) hlt
      have hc : ¬ c = selectOutput e res := fun h => hne h.symm
      have ihr := ih (count + 1) (selectOutput e res) hlt (by omega)
        (fun j c' hj1 hj2 => hbefore j c' (by omega) hj2)
      simp only [loop, hok, if_neg hc, List.length_cons]
      exact ⟨ihr.1, by rw [ihr.2]; omega⟩

theorem loop_converged_ge (t : Transformer) (e : Bool) (cmd : List String) :
    ∀ n c count s j, (loop t e cmd c count n).1 = Outcome.converged s j → count ≤ j := by
  intro n
  induction n with
  | zero => intro c count s j h; simp [loop] at h
  | succ m ih =>
    intro c count s j h
    cases hres : t count (fileText c) with
    | exn r => rw [loop] at h; rw [hres] at h; simp at h
    | ok res =>
      by_cases hc : c = selectOutput e res
      · rw [loop] at h; rw [hres] at h; simp [if_pos hc] at h
        omega
      · rw [loop] at h; rw [hres] at h; simp only [if_neg hc] at h
        have := ih _ _ _ _ h
        omega

theorem loop_head (t : Transformer) (e : Bool) (cmd : List String) :
    ∀ n c count rec, ((loop t e cmd c count n).2).head? = some rec →
      rec.candidate = c ∧ rec.count = count := by
  intro n c count rec h
  match n with
  | 0 => simp [loop] at h
  | m + 1 =>
    cases hres : t count (fileText c) with
    | exn r =>
      rw [loop] at h; rw [hres] at h
      simp at h
      subst h
      exact ⟨rfl, rfl⟩
    | ok res =>
      by_cases hc : c = selectOutput e res
      · rw [loop] at h; rw [hres] at h
        simp [if_pos hc] at h
        subst h
        exact ⟨rfl, rfl⟩
      · rw [loop] at h; rw [hres] at h
        simp only [if_neg hc, List.head?_cons, Option.some.injEq] at h
        subst h
        exact ⟨rfl, rfl⟩

theorem loop_file_invariant (t : Transformer) (e : Bool) (cmd : List String) :
    ∀ n c count, ∀ rec ∈ (loop t e cmd c count n).2,
      rec.fileWritten = rec.candidate ++ "\n" := by
  intro n
  induction n with
  | zero => intro c count rec h; simp [loop] at h
  | succ m ih =>
    intro c count rec h
    cases hres : t count (fileText c) with
    | exn r =>
      rw [loop] at h; rw [hres] at h
      simp at h
      rw [h]
      rfl
    | ok res =>
      by_cases hc : c = selectOutput e res
      · rw [loop] at h; rw [hres] at h
        simp [if_pos hc] at h
        rw [h]
        rfl
      · rw [loop] at h; rw [hres] at h
        simp only [if_neg hc, List.mem_cons] at h
        rcases h with h | h
        · rw [h]; rfl
        · exact ih _ _ rec h

theorem loop_chain (t : Transformer) (e : Bool) (cmd : List String) :
    ∀ n c count, List.Chain' (follows e) (loop t e cmd c count n).2 := by
  intro n
  induction n with
  | zero => intro c count; simp [loop]
  | succ m ih =>
    intro c count
    cases hres : t count (fileText c) with
    | exn r =>
      rw [loop]; rw [hres]
      simp
    | ok res =>
      by_cases hc : c = selectOutput e res
      · rw [loop]; rw [hres]
        simp [if_pos hc]
      · rw [loop]; rw [hres]
        simp only [if_neg hc]
        rw [List.chain'_cons']
        refine ⟨?_, ih _ _⟩
        intro b hb
        obtain ⟨hcand, hcount⟩ := loop_head t e cmd m (selectOutput e res) (count + 1) b hb
        exact ⟨res, rfl, hcand, hcount⟩

theorem selectOutput_congr {r1 r2 : RunResult} (e : Bool)
    (h1 : r1.stdout = r2.stdout) (h2 : r1.stderr = r2.stderr) :
    selectOutput e r1 = selectOutput e r2 := by
  cases e <;> simp [selectOutput, h1, h2]

theorem loop_same_streams (t1 t2 : Transformer) (e : Bool) (cmd : List String)
    (h : ∀ k file, sameStreams (t1 k file) (t2 k file)) :
    ∀ n c count, (loop t1 e cmd c count n).1 = (loop t2 e cmd c count n).1 ∧
      ((loop t1 e cmd c count n).2).length = ((loop t2 e cmd c count n).2).length := by
  intro n
  induction n with
  | zero => intro c count; simp [loop]
  | succ m ih =>
    intro c count
    have hk := h count (fileText c)
    cases h1 : t1 count (fileText c) with
    | exn r1 =>
      rw [h1] at hk
      cases h2 : t2 count (fileText c) with
      | exn r2 => simp [loop, h1, h2]
      | ok r2 => rw [h2] at hk; exact absurd hk (by simp [sameStreams])
    | ok r1 =>
      rw [h1] at hk
      cases h2 : t2 count (fileText c) with
      | exn r2 => rw [h2] at hk; exact absurd hk (by simp [sameStreams])
      | ok r2 =>
        rw [h2] at hk
        have hsel : selectOutput e r1 = selectOutput e r2 :=
          selectOutput_congr e hk.1 hk.2
        by_cases hc : c = selectOutput e r1
        · have hcc : c = selectOutput e r2 := by rw [← hsel]; exact hc
          simp [loop, h1, h2, if_pos hc, if_pos hcc]
        · have hc2 : ¬ c = selectOutput e r2 := fun hh => hc (by rw [hsel]; exact hh)
          simp only [loop, h1, h2, if_neg hc, if_neg hc2, List.length_cons]
          rw [hsel]
          exact ⟨(ih _ _).1, by rw [(ih _ _).2]⟩

theorem fileText_ne_self (c : String) : fileText c ≠ c := by
  intro h
  have hlen := congrArg String.length h
  rw [fileText, String.length_append] at hlen
  have hone : String.length "\n" = 1 := rfl
  rw [hone] at hlen
  omega

/-- C1 (counterexample): starting text `""` with a transformer that echoes
the artifact file's contents unchanged to the primary output stream does
NOT converge at iteration 1 with final text `""`: because the persisted
file carries one appended line terminator, the echoed output always
differs from the candidate by one terminator, and the search exhausts the
budget of 10 iterations. -/
theorem echo_start_empty_exhausts_budget :
    (compileErrorsRun ["py", "prog0.py"] false "" echoStdout maxIterations).1 =
      Outcome.exhaustedBudget 10 ∧
    (compileErrorsRun ["py", "prog0.py"] false "" echoStdout maxIterations).1 ≠
      Outcome.converged "" 1 := by
  refine ⟨rfl, ?_⟩
  intro h
  exact absurd h (by decide)

/-- C1 (amended): starting text `""` with a transformer that produces no
output on the primary stream (the source's trivial case: an empty program
produces no error messages) converges at iteration 1 with final text `""`
after exactly one invocation. A transformer that echoes the artifact file
itself never matches, since the file carries one more terminator than the
candidate. -/
theorem silent_start_empty_converges_first :
    (compileErrorsRun ["py", "prog0.py"] false "" silentTransformer maxIterations).1 =
      Outcome.converged "" 1 ∧
    ((compileErrorsRun ["py", "prog0.py"] false "" silentTransformer maxIterations).2).length = 1 :=
  ⟨rfl, rfl⟩

/-- C2: if on every iteration up to the budget the invocation completes and
its selected stream differs from the candidate fed to it, the search
performs exactly `maxIter` invocations and returns
`ExhaustedBudget(maxIter)` (the loop variable's final value). -/
theorem all_differing_exhausts_budget (t : Transformer) (e : Bool)
    (cmd : List String) (start : String) (maxIter : Nat) (hpos : 1 ≤ maxIter)
    (hdiff : ∀ k c, 1 ≤ k → k ≤ maxIter → okAndDiffers t e k c) :
    (compileErrorsRun cmd e start t maxIter).1 = Outcome.exhaustedBudget maxIter ∧
    ((compileErrorsRun cmd e start t maxIter).2).length = maxIter := by
  have h := loop_all_differs t e cmd maxIter 1 start
    (fun k c hk1 hk2 => hdiff k c hk1 (by omega))
  have harith : 1 + maxIter - 1 = maxIter := by omega
  rw [harith] at h
  exact h

/-- Witness for C2 at a concrete input: the stderr-echoing transformer
always returns the candidate plus one terminator, which never matches, so
the run exhausts the budget in exactly `maxIterations` invocations. -/
theorem all_differing_exhausts_budget_witness :
    (compileErrorsRun ["py", "prog.py"] true "x" echoStderr maxIterations).1 =
      Outcome.exhaustedBudget maxIterations ∧
    ((compileErrorsRun ["py", "prog.py"] true "x" echoStderr maxIterations).2).length =
      maxIterations := by
  refine all_differing_exhausts_budget echoStderr true ["py", "prog.py"] "x"
    maxIterations (by decide) ?_
  intro k c _ _
  exact ⟨⟨"", fileText c, 1⟩, rfl, fileText_ne_self c⟩

/-- C3: for every positive budget, every starting text and every
transformer, one search performs at least one and at most `maxIter`
transformer invocations. -/
theorem invocation_count_bounds (t : Transformer) (e : Bool)
    (cmd : List String) (start : String) (maxIter : Nat) (hpos : 1 ≤ maxIter) :
    1 ≤ ((compileErrorsRun cmd e start t maxIter).2).length ∧
    ((compileErrorsRun cmd e start t maxIter).2).length ≤ maxIter :=
  ⟨loop_length_pos t e cmd maxIter start 1 hpos,
   loop_length_le t e cmd maxIter start 1⟩

/-- Witness for C3 at a concrete input: the constant-diagnostic run makes
between 1 and 10 invocations. -/
theorem invocation_count_bounds_witness :
    1 ≤ ((compileErrorsRun ["py", "prog.py"] true "x" constantDiagnostic maxIterations).2).length ∧
    ((compileErrorsRun ["py", "prog.py"] true "x" constantDiagnostic maxIterations).2).length ≤
      maxIterations :=
  invocation_count_bounds constantDiagnostic true ["py", "prog.py"] "x"
    maxIterations (by decide)

/-- C4: starting text `"x"` with a transformer that always emits
`"syntax error on line 1"` on the diagnostic stream converges at
iteration 2 with that literal as final text: the first comparison fails,
the candidate becomes the literal, and the second comparison succeeds. -/
theorem constant_diagnostic_converges_second :
    (compileErrorsRun ["py", "prog.py"] true "x" constantDiagnostic maxIterations).1 =
      Outcome.converged "syntax error on line 1" 2 ∧
    ((compileErrorsRun ["py", "prog.py"] true "x" constantDiagnostic maxIterations).2).length = 2 :=
  ⟨rfl, rfl⟩

/-- C5: if the first invocation completes and its selected stream equals
the starting text, the search returns `Converged(startingText, 1)` after
exactly one invocation. -/
theorem identity_on_start_converges_first (t : Transformer) (e : Bool)
    (cmd : List String) (start : String) (maxIter : Nat) (hpos : 1 ≤ maxIter)
    (res : RunResult) (hok : t 1 (fileText start) = InvokeResult.ok res)
    (hid : selectOutput e res = start) :
    (compileErrorsRun cmd e start t maxIter).1 = Outcome.converged start 1 ∧
    ((compileErrorsRun cmd e start t maxIter).2).length = 1 := by
  obtain ⟨m, rfl⟩ : ∃ m, maxIter = m + 1 := ⟨maxIter - 1, by omega⟩
  have hc : start = selectOutput e res := hid.symm
  constructor
  · simp only [compileErrorsRun, loop, hok, if_pos hc]
  · simp only [compileErrorsRun, loop, hok, if_pos hc, List.length_cons, List.length_nil]

/-- Witness for C5 at a concrete input: the silent transformer maps the
starting text `""` back to `""` on the primary stream, so the search
converges immediately. -/
theorem identity_on_start_converges_first_witness :
    (compileErrorsRun ["sh", "prog.sh"] false "" silentTransformer maxIterations).1 =
      Outcome.converged "" 1 ∧
    ((compileErrorsRun ["sh", "prog.sh"] false "" silentTransformer maxIterations).2).length = 1 :=
  identity_on_start_converges_first silentTransformer false ["sh", "prog.sh"] ""
    maxIterations (by decide) ⟨"", "", 0⟩ rfl rfl

/-- C6: if the first k-1 invocations complete with differing output and
the k-th invocation (k within the budget) cannot be started, the search
stops at iteration k with `InvocationFailed` naming the attempted command:
exactly k invocation attempts happen, the failed one is not retried, and
no further iterations run. -/
theorem invocation_failure_stops_search (t : Transformer) (e : Bool)
    (cmd : List String) (start : String) (maxIter k : Nat)
    (h1 : 1 ≤ k) (h2 : k ≤ maxIter)
    (hbefore : ∀ j c, 1 ≤ j → j < k → okAndDiffers t e j c)
    (hfail : ∀ c, ∃ reason, t k (fileText c) = InvokeResult.exn reason) :
    (compileErrorsRun cmd e start t maxIter).1 = Outcome.invocationFailed cmd ∧
    ((compileErrorsRun cmd e start t maxIter).2).length = k := by
  have h := loop_fails t e cmd k hfail maxIter 1 start h1 (by omega) hbefore
  have harith : k + 1 - 1 = k := by omega
  rw [harith] at h
  exact h

/-- Witness for C6 at a concrete input: a command naming a nonexistent
executable fails at iteration 1, so the search returns `InvocationFailed`
after a single invocation attempt and zero comparisons. -/
theorem invocation_failure_stops_search_witness :
    (compileErrorsRun ["nosuch", "prog.py"] true "x" failTransformer maxIterations).1 =
      Outcome.invocationFailed ["nosuch", "prog.py"] ∧
    ((compileErrorsRun ["nosuch", "prog.py"] true "x" failTransformer maxIterations).2).length = 1 :=
  invocation_failure_stops_search failTransformer true ["nosuch", "prog.py"] "x"
    maxIterations 1 (by decide) (by decide)
    (fun j c hj1 hj2 => absurd (Nat.lt_of_le_of_lt hj1 hj2) (by omega))
    (fun c => ⟨"FileNotFoundError", rfl⟩)

/-- C7: the convergence test is exact string equality with no trimming or
normalization: when the invocation at the current iteration completes, the
search converges on that iteration with the current candidate iff the
selected captured stream equals the candidate byte-for-byte. -/
theorem convergence_is_exact_equality (t : Transformer) (e : Bool)
    (cmd : List String) (c : String) (count n : Nat) (res : RunResult)
    (hok : t count (fileText c) = InvokeResult.ok res) :
    (loop t e cmd c count (n + 1)).1 = Outcome.converged c count ↔
      selectOutput e res = c := by
  constructor
  · intro h
    by_contra hne
    have hc : ¬ c = selectOutput e res := fun hh => hne hh.symm
    simp only [loop, hok, if_neg hc] at h
    have := loop_converged_ge t e cmd n (selectOutput e res) (count + 1) c count h
    omega
  · intro h
    have hc : c = selectOutput e res := h.symm
    simp only [loop, hok, if_pos hc]

/-- Witness for C7 at a concrete input: the candidate `"x\n"` against
captured output `"x"` is not exact equality, so the run does not converge
at that iteration with that candidate. -/
theorem convergence_is_exact_equality_witness :
    ¬ (loop constantStdoutX false ["cl", "prog.c"] "x\n" 1 (9 + 1)).1 =
      Outcome.converged "x\n" 1 := by
  have h := convergence_is_exact_equality constantStdoutX false ["cl", "prog.c"]
    "x\n" 1 9 ⟨"x", "", 0⟩ rfl
  rw [h]
  decide

/-- C8: invariant of every run: each iteration record's artifact file text
is exactly its candidate followed by one terminator, and consecutive
iterations are linked solely through the captured stream: each next
candidate equals the previous invocation's selected output. -/
theorem artifact_and_candidate_invariant (t : Transformer) (e : Bool)
    (cmd : List String) (start : String) (maxIter : Nat) :
    (∀ rec ∈ (compileErrorsRun cmd e start t maxIter).2,
        rec.fileWritten = rec.candidate ++ "\n") ∧
    List.Chain' (follows e) (compileErrorsRun cmd e start t maxIter).2 :=
  ⟨loop_file_invariant t e cmd maxIter start 1, loop_chain t e cmd maxIter start 1⟩

/-- C9: the search's outcome and invocation count are independent of the
transformer's exit statuses: two transformers that agree on every captured
stream (and on start failures) yield the same outcome — including final
text and iteration count — and the same number of invocations, however
their exit statuses differ. -/
theorem outcome_ignores_exit_status (t1 t2 : Transformer) (e : Bool)
    (cmd : List String) (start : String) (maxIter : Nat)
    (h : ∀ k file, sameStreams (t1 k file) (t2 k file)) :
    (compileErrorsRun cmd e start t1 maxIter).1 =
      (compileErrorsRun cmd e start t2 maxIter).1 ∧
    ((compileErrorsRun cmd e start t1 maxIter).2).length =
      ((compileErrorsRun cmd e start t2 maxIter).2).length :=
  loop_same_streams t1 t2 e cmd h maxIter start 1

/-- Witness for C9 at a concrete input: the constant-diagnostic transformer
with exit status 1 and its variant with exit status 0 produce identical
outcomes and invocation counts. -/
theorem outcome_ignores_exit_status_witness :
    (compileErrorsRun ["py", "prog.py"] true "x" constantDiagnostic maxIterations).1 =
      (compileErrorsRun ["py", "prog.py"] true "x"
        (fun _ _ => InvokeResult.ok ⟨"", "syntax error on line 1", 0⟩) maxIterations).1 ∧
    ((compileErrorsRun ["py", "prog.py"] true "x" constantDiagnostic maxIterations).2).length =
      ((compileErrorsRun ["py", "prog.py"] true "x"
        (fun _ _ => InvokeResult.ok ⟨"", "syntax error on line 1", 0⟩) maxIterations).2).length :=
  outcome_ignores_exit_status constantDiagnostic
    (fun _ _ => InvokeResult.ok ⟨"", "syntax error on line 1", 0⟩)
    true ["py", "prog.py"] "x" maxIterations
    (fun _ _ => ⟨rfl, rfl⟩)

/-- C10: `compileErrors` returns a plain boolean: `true` exactly when the
underlying run converged, and `false` both when the invocation failed and
when the budget ran out — so the returned value alone cannot distinguish
those two outcomes, which differ only in the printed report line, as the
two concrete runs here show. -/
theorem returns_bool_not_tagged_outcome :
    (∀ desc pf cmd e start t mi,
        ((compileErrors desc pf cmd e start t mi).1 = true ↔
          ∃ s k, (compileErrorsRun cmd e start t mi).1 = Outcome.converged s k)) ∧
    (compileErrors "Python" "prog.py" ["py", "prog.py"] true "x"
      failTransformer maxIterations).1 = false ∧
    (compileErrors "Python" "prog.py" ["py", "prog.py"] true "x"
      echoStderr maxIterations).1 = false ∧
    (compileErrorsRun ["py", "prog.py"] true "x" failTransformer maxIterations).1 ≠
      (compileErrorsRun ["py", "prog.py"] true "x" echoStderr maxIterations).1 ∧
    (compileErrors "Python" "prog.py" ["py", "prog.py"] true "x"
        failTransformer maxIterations).2 ≠
      (compileErrors "Python" "prog.py" ["py", "prog.py"] true "x"
        echoStderr maxIterations).2 := by
  refine ⟨?_, by decide, by decide, by decide, by decide⟩
  intro desc pf cmd e start t mi
  cases hout : (compileErrorsRun cmd e start t mi).1 with
  | converged s k =>
    simp [compileErrors, hout]
  | invocationFailed r =>
    simp [compileErrors, hout]
  | exhaustedBudget n =>
    simp [compileErrors, hout]

end CompileErrors
